import Mathlib

/-
Verification of the modal dialog widget
(`src/components/modal/modal-component.ts`).

The component is a LitElement with three reactive fields (`open`,
`message`, `type`), three private methods (`close`, `handleConfirm`,
`handleCancel`) and a `render` method.  Each method body is embedded as a
trace of primitive effects (`Action`): a write to the `open` field or a
dispatch of a `"confirm"` CustomEvent carrying a boolean `detail`.  The
template produced by `render` is embedded as a `View`: the click handler
of the overlay, the displayed message, and the list of buttons, each recording
its CSS part name, the i18next key passed to `i18nextService.t`, the
resolved label, and its click handler.  A click on the page runs the
handler of the rendered control it hits, if that control is rendered at
all (when `open` is false, `render` returns `null`, so nothing is
clickable).
-/

namespace Modal

/-- The three reactive properties of the `modal-component` element:
`open` (visibility), `message` (displayed text) and `type`
(`"confirm"` selects the two-button layout; anything else is alert). -/
structure ModalComponent where
  «open» : Bool
  message : String
  type : String
deriving DecidableEq

/-- A primitive effect performed by a method body, in program order:
a write to the reactive `open` field, or a synchronous dispatch of a
`"confirm"` CustomEvent whose `detail` is the boolean decision. -/
inductive Action where
  | setOpen (b : Bool)
  | emit (detail : Bool)
deriving DecidableEq

/-- Body of `close()`: `this.open = false;` then
`this.dispatchEvent(new CustomEvent("confirm", { detail: false }))`. -/
def closeActs : List Action :=
  [Action.setOpen false, Action.emit false]

/-- Body of `handleConfirm()`:
`this.dispatchEvent(new CustomEvent("confirm", { detail: true }))` then
`this.close()`. -/
def handleConfirmActs : List Action :=
  Action.emit true :: closeActs

/-- Body of `handleCancel()`:
`this.dispatchEvent(new CustomEvent("confirm", { detail: false }))` then
`this.close()`. -/
def handleCancelActs : List Action :=
  Action.emit false :: closeActs

/-- Effect of one primitive action: the successor state and the batch of
`"confirm"` event details delivered to the host by that action. -/
def applyAct (m : ModalComponent) : Action → ModalComponent × List Bool
  | Action.setOpen b => ({ m with «open» := b }, [])
  | Action.emit d => (m, [d])

/-- Run a method body: final state and the `"confirm"` event details
delivered to the host, in dispatch order. -/
def runActs (m : ModalComponent) : List Action → ModalComponent × List Bool
  | [] => (m, [])
  | a :: rest =>
    let r1 := applyAct m a
    let r2 := runActs r1.1 rest
    (r2.1, r1.2 ++ r2.2)

/-- The method `close` as a state transformer. -/
def close (m : ModalComponent) : ModalComponent × List Bool :=
  runActs m closeActs

/-- The method `handleConfirm` as a state transformer. -/
def handleConfirm (m : ModalComponent) : ModalComponent × List Bool :=
  runActs m handleConfirmActs

/-- The method `handleCancel` as a state transformer. -/
def handleCancel (m : ModalComponent) : ModalComponent × List Bool :=
  runActs m handleCancelActs

/-- A `<button>` of the rendered template: its `part` attribute, the key
passed to `i18nextService.t(...)` for its label, the resolved label text,
and the trace of the method bound to `@click`. -/
structure RButton where
  part : String
  labelKey : String
  label : String
  onClick : List Action
deriving DecidableEq

/-- The rendered template: the overlay `<div>` with its `@click` handler,
the `<p>` content, and the buttons inside `modal-buttons`. -/
structure View where
  overlayClick : List Action
  message : String
  buttons : List RButton
deriving DecidableEq

/-- `render()`.  `if (!this.open) return null;` then the template:
overlay with `@click=${this.close}`, `<p>${this.message}</p>`, and either
the two-button confirm layout (when `this.type === "confirm"`) or the
single ok button bound to `this.close`.  `lookup` is the collaborator
`i18nextService.t`. -/
def render (lookup : String → String) (m : ModalComponent) : Option View :=
  if m.open = false then none
  else some
    { overlayClick := closeActs
      message := m.message
      buttons :=
        if m.type = "confirm" then
          [ { part := "modal-confirm-button"
              labelKey := "modal.buttons.ok"
              label := lookup "modal.buttons.ok"
              onClick := handleConfirmActs },
            { part := "modal-cancel-button"
              labelKey := "modal.buttons.cancel"
              label := lookup "modal.buttons.cancel"
              onClick := handleCancelActs } ]
        else
          [ { part := "modal-confirm-button"
              labelKey := "modal.buttons.ok"
              label := lookup "modal.buttons.ok"
              onClick := closeActs } ] }

/-- The keys the render pass hands to the label-lookup collaborator,
one per rendered button label. -/
def lookupCalls (v : View) : List String :=
  v.buttons.map fun b => b.labelKey

/-- The rendered ok-control, when present. -/
def okControl (v : View) : Option RButton :=
  v.buttons.find? fun b => b.part == "modal-confirm-button"

/-- The rendered cancel-control, when present. -/
def cancelControl (v : View) : Option RButton :=
  v.buttons.find? fun b => b.part == "modal-cancel-button"

/-- The three clickable regions named by the spec. -/
inductive ClickTarget where
  | overlay
  | okButton
  | cancelButton
deriving DecidableEq

/-- The handler trace a user click triggers: the handler of the rendered
control that was hit, or nothing when the dialog is not rendered or the
control does not exist in the current layout. -/
def clickActions (lookup : String → String) (m : ModalComponent)
    (c : ClickTarget) : List Action :=
  match render lookup m with
  | none => []
  | some v =>
    match c with
    | ClickTarget.overlay => v.overlayClick
    | ClickTarget.okButton => ((okControl v).map fun b => b.onClick).getD []
    | ClickTarget.cancelButton => ((cancelControl v).map fun b => b.onClick).getD []

/-- One external stimulus: a user click on a region, or a host write to
one of the three reactive properties. -/
inductive Input where
  | click (c : ClickTarget)
  | hostSetOpen (b : Bool)
  | hostSetMessage (s : String)
  | hostSetType (s : String)
deriving DecidableEq

/-- One step of the event loop: a click runs the handler of the control
it hits (if rendered); a host property write just mutates the field. -/
def step (lookup : String → String) (m : ModalComponent) :
    Input → ModalComponent × List Bool
  | Input.click c => runActs m (clickActions lookup m c)
  | Input.hostSetOpen b => ({ m with «open» := b }, [])
  | Input.hostSetMessage s => ({ m with message := s }, [])
  | Input.hostSetType s => ({ m with type := s }, [])

/-- Run a sequence of stimuli, collecting all `"confirm"` details. -/
def run (lookup : String → String) (m : ModalComponent) :
    List Input → ModalComponent × List Bool
  | [] => (m, [])
  | i :: rest =>
    let r1 := step lookup m i
    let r2 := run lookup r1.1 rest
    (r2.1, r1.2 ++ r2.2)

/-- Whether an action is an event dispatch. -/
def isEmit : Action → Bool
  | Action.emit _ => true
  | Action.setOpen _ => false

/-- Number of `"confirm"` dispatches in a trace. -/
def emitCount (acts : List Action) : Nat :=
  (acts.filter isEmit).length

/-- Points during a handler run at which host code can execute, with
what it sees there.  The event loop is single threaded, so the host runs
only while a dispatch is in flight (a `dispatchEvent` call runs the
listeners synchronously) or after the handler returns.  Each point
records the component state at that moment and how many `"confirm"`
notifications the host has received by then (counting the one being
delivered). -/
def hostObsAux (m : ModalComponent) (received : Nat) :
    List Action → List (ModalComponent × Nat)
  | [] => [(m, received)]
  | Action.setOpen b :: rest => hostObsAux { m with «open» := b } received rest
  | Action.emit _ :: rest => (m, received + 1) :: hostObsAux m (received + 1) rest

/-- Host observation points of a handler trace started in state `m`. -/
def hostObs (m : ModalComponent) (acts : List Action) :
    List (ModalComponent × Nat) :=
  hostObsAux m 0 acts

/-- The alert-mode template (the `else` branch of the template ternary):
a single ok button bound to `close`, no cancel button. -/
def alertView (lookup : String → String) (msg : String) : View :=
  { overlayClick := closeActs
    message := msg
    buttons :=
      [ { part := "modal-confirm-button"
          labelKey := "modal.buttons.ok"
          label := lookup "modal.buttons.ok"
          onClick := closeActs } ] }

/-- The confirm-mode template (the `then` branch of the template
ternary): ok button bound to `handleConfirm`, cancel button bound to
`handleCancel`. -/
def confirmView (lookup : String → String) (msg : String) : View :=
  { overlayClick := closeActs
    message := msg
    buttons :=
      [ { part := "modal-confirm-button"
          labelKey := "modal.buttons.ok"
          label := lookup "modal.buttons.ok"
          onClick := handleConfirmActs },
        { part := "modal-cancel-button"
          labelKey := "modal.buttons.cancel"
          label := lookup "modal.buttons.cancel"
          onClick := handleCancelActs } ] }

/-- Any click triggers one of the three method bodies, or nothing when
the clicked control is not rendered. -/
theorem clickActions_cases (lookup : String → String) (m : ModalComponent)
    (c : ClickTarget) :
    clickActions lookup m c = [] ∨ clickActions lookup m c = closeActs
      ∨ clickActions lookup m c = handleConfirmActs
      ∨ clickActions lookup m c = handleCancelActs := by
  cases c <;> by_cases ho : m.open = false <;> by_cases ht : m.type = "confirm" <;>
    simp [clickActions, render, okControl, cancelControl, ho, ht, List.find?]

/-- At every host observation point of a `close` run where `open` reads
false, at least one notification has been received. -/
theorem obs_closeActs (m : ModalComponent) :
    ∀ p ∈ hostObs m closeActs, p.1.open = false → 1 ≤ p.2 := by
  intro p hp
  simp [hostObs, hostObsAux, closeActs] at hp
  subst hp
  exact fun _ => le_refl 1

/-- At every host observation point of a `handleConfirm` run where
`open` reads false, at least one notification has been received. -/
theorem obs_handleConfirmActs (m : ModalComponent) :
    ∀ p ∈ hostObs m handleConfirmActs, p.1.open = false → 1 ≤ p.2 := by
  intro p hp
  simp [hostObs, hostObsAux, handleConfirmActs, closeActs] at hp
  rcases hp with hp | hp <;> subst hp <;> intro _ <;> omega

/-- At every host observation point of a `handleCancel` run where `open`
reads false, at least one notification has been received. -/
theorem obs_handleCancelActs (m : ModalComponent) :
    ∀ p ∈ hostObs m handleCancelActs, p.1.open = false → 1 ≤ p.2 := by
  intro p hp
  simp [hostObs, hostObsAux, handleCancelActs, closeActs] at hp
  rcases hp with hp | hp <;> subst hp <;> intro _ <;> omega

/-- A stimulus hitting a closed dialog (other than the host reopening
it) keeps it closed and emits nothing: `render` returns `null`, so no
control is clickable, and the remaining host writes do not touch
`dispatchEvent`. -/
theorem step_closed (lookup : String → String) (m : ModalComponent)
    (hm : m.open = false) (i : Input) (hi : i ≠ Input.hostSetOpen true) :
    (step lookup m i).1.open = false ∧ (step lookup m i).2 = [] := by
  cases i with
  | click c => simp [step, clickActions, render, hm, runActs]
  | hostSetOpen b =>
    cases b
    · simp [step]
    · exact absurd rfl hi
  | hostSetMessage s => simp [step, hm]
  | hostSetType s => simp [step, hm]

/-- A closed dialog stays closed and silent under any stimulus sequence
that never sets `open` back to true. -/
theorem run_closed (lookup : String → String) :
    ∀ (inputs : List Input) (m : ModalComponent), m.open = false →
      (∀ i ∈ inputs, i ≠ Input.hostSetOpen true) →
      (run lookup m inputs).1.open = false ∧ (run lookup m inputs).2 = [] := by
  intro inputs
  induction inputs with
  | nil => intro m hm _; exact ⟨hm, rfl⟩
  | cons i rest ih =>
    intro m hm hno
    have hi : i ≠ Input.hostSetOpen true := hno i (List.mem_cons_self i rest)
    have hs := step_closed lookup m hm i hi
    have hr := ih (step lookup m i).1 hs.1 fun j hj => hno j (List.mem_cons_of_mem i hj)
    exact ⟨by simpa [run] using hr.1, by simp [run, hs.2, hr.2]⟩

/-- C1: refuted on the code at a concrete input.  With the dialog open in
confirm mode, a single click on the ok-control dispatches two `"confirm"`
notifications for the one closing transition: `handleConfirm` dispatches
detail `true` and then calls `close`, which dispatches a second event with
detail `false`.  The claim says exactly one notification fires, never
two. -/
theorem confirm_ok_click_emits_two_notifications :
    (step id ⟨true, "Delete item?", "confirm"⟩
        (Input.click ClickTarget.okButton)).2 = [true, false] := rfl

/-- C2: evaluated on the code at a concrete open confirm-mode state.  A
click on the ok-control dispatches detail `true` and then a second event
with detail `false` (from the `close()` call inside `handleConfirm`); a
click on the cancel-control dispatches detail `false` twice; only the
overlay click dispatches a single `false`.  The claim (and the doc
comments of `handleConfirm`) describe a single decision per click, with
the ok-control communicating `true`; the code corrupts that decision with
a trailing `false`. -/
theorem confirm_mode_click_decision_values :
    (step id ⟨true, "msg", "confirm"⟩
        (Input.click ClickTarget.okButton)).2 = [true, false]
    ∧ (step id ⟨true, "msg", "confirm"⟩
        (Input.click ClickTarget.cancelButton)).2 = [false, false]
    ∧ (step id ⟨true, "msg", "confirm"⟩
        (Input.click ClickTarget.overlay)).2 = [false] :=
  ⟨rfl, rfl, rfl⟩

/-- C3: for every qualifying closing input (a click whose control is
actually rendered), the handler trace both sets `open` to false and
dispatches at least one `"confirm"` notification within the same
synchronous handler run (the same logical step), and at every point where
host code can run (during a synchronous dispatch, or after the handler
returns) with `open` reading false, the host has already received at
least one notification — it never observes `open = false` strictly
before receiving a notification. -/
theorem notification_before_host_observes_closed (lookup : String → String)
    (m : ModalComponent) (c : ClickTarget)
    (h : clickActions lookup m c ≠ []) :
    Action.setOpen false ∈ clickActions lookup m c
    ∧ 1 ≤ emitCount (clickActions lookup m c)
    ∧ ∀ p ∈ hostObs m (clickActions lookup m c), p.1.open = false → 1 ≤ p.2 := by
  rcases clickActions_cases lookup m c with h0 | h1 | h1 | h1
  · exact absurd h0 h
  · rw [h1]; exact ⟨by decide, by decide, obs_closeActs m⟩
  · rw [h1]; exact ⟨by decide, by decide, obs_handleConfirmActs m⟩
  · rw [h1]; exact ⟨by decide, by decide, obs_handleCancelActs m⟩

/-- C3 witness: the theorem applied to a concrete open confirm-mode state
and an ok-control click. -/
theorem notification_before_host_observes_closed_witness :
    clickActions id ⟨true, "msg2", "confirm"⟩ ClickTarget.okButton ≠ []
    ∧ 1 ≤ emitCount (clickActions id ⟨true, "msg2", "confirm"⟩ ClickTarget.okButton) :=
  ⟨by decide,
   (notification_before_host_observes_closed id ⟨true, "msg2", "confirm"⟩
      ClickTarget.okButton (by decide)).2.1⟩

/-- C4: after any qualifying closing click, the `open` field is false,
and any further stimulus sequence that never contains a host write of
`open := true` delivers no notification at all — in particular a second
click emits nothing, because `render` returns `null` for a closed dialog
and no control is clickable. -/
theorem closing_sets_open_false_and_silences_until_reopen
    (lookup : String → String) (m : ModalComponent) (c : ClickTarget)
    (h : clickActions lookup m c ≠ []) :
    (step lookup m (Input.click c)).1.open = false
    ∧ ∀ inputs : List Input, (∀ i ∈ inputs, i ≠ Input.hostSetOpen true) →
        (run lookup (step lookup m (Input.click c)).1 inputs).2 = [] := by
  have hopen : (step lookup m (Input.click c)).1.open = false := by
    rcases clickActions_cases lookup m c with h0 | h1 | h1 | h1
    · exact absurd h0 h
    all_goals
      simp [step, h1, runActs, applyAct, closeActs, handleConfirmActs,
        handleCancelActs]
  exact ⟨hopen, fun inputs hno => (run_closed lookup inputs _ hopen hno).2⟩

/-- C4 witness: the theorem applied to a concrete open confirm-mode
state, a cancel-control click, and a concrete follow-up sequence (a
second click plus a host message write). -/
theorem closing_sets_open_false_and_silences_until_reopen_witness :
    clickActions id ⟨true, "msg3", "confirm"⟩ ClickTarget.cancelButton ≠ []
    ∧ (step id ⟨true, "msg3", "confirm"⟩
        (Input.click ClickTarget.cancelButton)).1.open = false
    ∧ (run id (step id ⟨true, "msg3", "confirm"⟩
          (Input.click ClickTarget.cancelButton)).1
        [Input.click ClickTarget.okButton, Input.hostSetMessage "y"]).2 = [] :=
  ⟨by decide,
   (closing_sets_open_false_and_silences_until_reopen id
      ⟨true, "msg3", "confirm"⟩ ClickTarget.cancelButton (by decide)).1,
   (closing_sets_open_false_and_silences_until_reopen id
      ⟨true, "msg3", "confirm"⟩ ClickTarget.cancelButton (by decide)).2
     [Input.click ClickTarget.okButton, Input.hostSetMessage "y"] (by decide)⟩

/-- C5: with the dialog open in alert mode (`type` is anything other
than `"confirm"`), a click on the single acknowledgement (ok) control and
a click on the overlay both run `close`, delivering exactly the single
decision `false`. -/
theorem alert_mode_qualifying_inputs_emit_false (lookup : String → String)
    (m : ModalComponent) (h1 : m.open = true) (h2 : m.type ≠ "confirm") :
    (step lookup m (Input.click ClickTarget.okButton)).2 = [false]
    ∧ (step lookup m (Input.click ClickTarget.overlay)).2 = [false] := by
  constructor <;>
    simp [step, clickActions, render, okControl, h1, h2, List.find?, runActs,
      applyAct, closeActs]

/-- C5 witness: the theorem applied to a concrete open alert-mode
state. -/
theorem alert_mode_qualifying_inputs_emit_false_witness :
    ((⟨true, "Saved.", "alert"⟩ : ModalComponent).open = true
      ∧ (⟨true, "Saved.", "alert"⟩ : ModalComponent).type ≠ "confirm")
    ∧ (step id ⟨true, "Saved.", "alert"⟩
        (Input.click ClickTarget.okButton)).2 = [false]
    ∧ (step id ⟨true, "Saved.", "alert"⟩
        (Input.click ClickTarget.overlay)).2 = [false] :=
  ⟨⟨by decide, by decide⟩,
   alert_mode_qualifying_inputs_emit_false id ⟨true, "Saved.", "alert"⟩
     (by decide) (by decide)⟩

/-- C6: for every `type` other than `"confirm"` (the empty string
included), an open dialog renders the alert layout: exactly one button,
which is the acknowledgement control (part `modal-confirm-button`, label
from the ok key, `@click` bound to `close`), and no cancel control. -/
theorem unrecognized_type_renders_alert_layout (lookup : String → String)
    (m : ModalComponent) (h1 : m.open = true) (h2 : m.type ≠ "confirm") :
    render lookup m = some (alertView lookup m.message)
    ∧ (alertView lookup m.message).buttons.length = 1
    ∧ okControl (alertView lookup m.message) =
        some { part := "modal-confirm-button"
               labelKey := "modal.buttons.ok"
               label := lookup "modal.buttons.ok"
               onClick := closeActs }
    ∧ cancelControl (alertView lookup m.message) = none := by
  refine ⟨?_, rfl, rfl, rfl⟩
  simp [render, alertView, h1, h2]

/-- C6 witness: Scenario D of the spec, `type = ""`. -/
theorem unrecognized_type_renders_alert_layout_witness :
    ((⟨true, "msg4", ""⟩ : ModalComponent).open = true
      ∧ (⟨true, "msg4", ""⟩ : ModalComponent).type ≠ "confirm")
    ∧ render id ⟨true, "msg4", ""⟩ = some (alertView id "msg4")
    ∧ cancelControl (alertView id "msg4") = none :=
  ⟨⟨by decide, by decide⟩,
   (unrecognized_type_renders_alert_layout id ⟨true, "msg4", ""⟩
      (by decide) (by decide)).1,
   (unrecognized_type_renders_alert_layout id ⟨true, "msg4", ""⟩
      (by decide) (by decide)).2.2.2⟩

/-- C7: a host write `open := true` while the dialog is already open
leaves the component state exactly as it was and dispatches nothing — the
write is idempotent, resets nothing, and introduces no notification. -/
theorem reopen_while_open_is_identity (lookup : String → String)
    (m : ModalComponent) (h : m.open = true) :
    step lookup m (Input.hostSetOpen true) = (m, []) := by
  cases m with
  | mk o msg ty =>
    simp only [step]
    simp at h
    subst h
    rfl

/-- C7 witness: the theorem applied to a concrete open state. -/
theorem reopen_while_open_is_identity_witness :
    (⟨true, "msg5", "confirm"⟩ : ModalComponent).open = true
    ∧ step id ⟨true, "msg5", "confirm"⟩ (Input.hostSetOpen true)
        = (⟨true, "msg5", "confirm"⟩, []) :=
  ⟨by decide, reopen_while_open_is_identity id ⟨true, "msg5", "confirm"⟩ rfl⟩

/-- C8: whenever the dialog renders, the displayed paragraph text is the
`message` field exactly as the host supplied it, with no transformation
applied. -/
theorem message_rendered_verbatim (lookup : String → String)
    (m : ModalComponent) (v : View) (h : render lookup m = some v) :
    v.message = m.message := by
  by_cases ho : m.open = false
  · simp [render, ho] at h
  · unfold render at h
    rw [if_neg ho] at h
    injection h with h
    rw [← h]

/-- C8 witness: the theorem applied to a concrete render. -/
theorem message_rendered_verbatim_witness :
    render id ⟨true, "hello", ""⟩ = some (alertView id "hello")
    ∧ (alertView id "hello").message
        = (⟨true, "hello", ""⟩ : ModalComponent).message :=
  ⟨by decide,
   message_rendered_verbatim id ⟨true, "hello", ""⟩ (alertView id "hello")
     (by decide)⟩

/-- C9: every render pass hands the label-lookup collaborator only the
two keys `"modal.buttons.ok"` and `"modal.buttons.cancel"`, and a
confirm-mode render calls exactly those two — so across all modes and
renders exactly these two distinct keys are looked up and no others. -/
theorem lookup_called_for_ok_and_cancel_keys_only (lookup : String → String)
    (m : ModalComponent) (v : View) (h : render lookup m = some v) :
    (∀ k ∈ lookupCalls v, k = "modal.buttons.ok" ∨ k = "modal.buttons.cancel")
    ∧ (m.type = "confirm" →
        lookupCalls v = ["modal.buttons.ok", "modal.buttons.cancel"]) := by
  by_cases ho : m.open = false
  · simp [render, ho] at h
  · unfold render at h
    rw [if_neg ho] at h
    injection h with h
    subst h
    by_cases ht : m.type = "confirm"
    · constructor
      · intro k hk
        simp [lookupCalls, ht] at hk
        tauto
      · intro _
        simp [lookupCalls, ht]
    · constructor
      · intro k hk
        simp [lookupCalls, ht] at hk
        exact Or.inl hk
      · intro hc
        exact absurd hc ht

/-- C9 witness: the theorem applied to a concrete confirm-mode render,
whose lookup calls are exactly the ok key and the cancel key. -/
theorem lookup_called_for_ok_and_cancel_keys_only_witness :
    render id ⟨true, "msg6", "confirm"⟩ = some (confirmView id "msg6")
    ∧ lookupCalls (confirmView id "msg6")
        = ["modal.buttons.ok", "modal.buttons.cancel"] :=
  ⟨by decide,
   (lookup_called_for_ok_and_cancel_keys_only id ⟨true, "msg6", "confirm"⟩
      (confirmView id "msg6") (by decide)).2 (by decide)⟩

/-- C10: each closing handler (`close`, `handleConfirm`, `handleCancel`)
leaves the component state equal to the original with only the `open`
field overwritten (to false) — `message` and `type` are unchanged by
every closing transition. -/
theorem closing_handlers_mutate_only_open (m : ModalComponent) :
    (close m).1 = { m with «open» := false }
    ∧ (handleConfirm m).1 = { m with «open» := false }
    ∧ (handleCancel m).1 = { m with «open» := false } :=
  ⟨rfl, rfl, rfl⟩

end Modal
